import Mathlib

/-!
# Shallow embedding of the fabric-supply-chain chaincodes

This file embeds, as executable Lean definitions, the two Go chaincodes of the
repository that the specification describes:

* the ProductCatalog chaincode (`src/chaincode/go/reference/chaincode_example02.go`,
  type `SimpleChaincode`): `initProduct`, `updateProduct`, `transferProduct`,
  `updateOwner`, and the query-string construction of `queryProductsByOwner`;
* the TransferNegotiator chaincode (`src/chaincode/go/relationship/chaincode_example02.go`
  together with its companion declarations, the first file of `src/unnamed/part_002`):
  `sendRequest`, `transferAccepted`, `transferRejected`, `EmitState`, and
  `checkProductExistenceAndOwnership`; and the evolved `transferRejected`
  variant found in the second file of `src/unnamed/part_002`.

Modelling conventions:

* The Fabric ledger state visible to a chaincode is a finite association list.
  `PutState` overwrites the binding for an existing key; `DelState` removes it.
* A `pb.Response` is a `status` (200 for `shim.Success`, 500 for `shim.Error`,
  and the literal code of an explicit `pb.Response` literal) plus a message.
* `GetCreatorOrganization` is modelled by an explicit `creatorOrg` argument,
  and `time.Now().UTC().Unix()` by an explicit `now` argument.
* `stub.InvokeChaincode` on another channel is read-only in Fabric; the
  negotiator therefore receives the common-channel catalog state as a
  read-only argument and cannot mutate it, exactly as the Go code (which only
  ever invokes the `readProduct` query on it).
* `stub.SetEvent` is modelled by appending to an `events` trace so that
  "exactly one event emitted" is expressible.
* Dynamic error text coming from Go library errors (`strconv.Atoi` failures)
  is rendered with a fixed placeholder suffix; all error text the claims
  depend on is reproduced verbatim.
-/

deriving instance DecidableEq for Except

namespace FabricSupplyChain

/-- Result envelope of a chaincode invocation (`pb.Response`): `shim.Success`
gives status 200, `shim.Error` gives status 500. -/
structure Response where
  status : Nat
  message : String
deriving Repr, DecidableEq

/-- `shim.Success(nil)`. -/
def shimSuccess : Response := ⟨200, ""⟩

/-- `shim.Error(msg)`: status 500 in the Fabric shim. -/
def shimError (m : String) : Response := ⟨500, m⟩

/-- Association-list lookup keyed by decidable equality
(`stub.GetState` on an existing/missing key). -/
def lookupKV {α β : Type} [DecidableEq α] (k : α) : List (α × β) → Option β
  | [] => none
  | (k2, v) :: rest => if k = k2 then some v else lookupKV k rest

/-- Association-list overwrite (`stub.PutState`): replaces the binding for `k`
if present, otherwise appends it. -/
def putKV {α β : Type} [DecidableEq α] (k : α) (v : β) : List (α × β) → List (α × β)
  | [] => [(k, v)]
  | (k2, v2) :: rest => if k = k2 then (k, v) :: rest else (k2, v2) :: putKV k v rest

/-- `strings.ToLower`, restricted to the ASCII range the repository's
organization identifiers use: maps each character through `Char.toLower`. -/
def strToLower (s : String) : String := ⟨s.data.map Char.toLower⟩

/-- `strconv.Atoi`: an optional sign followed by at least one decimal digit. -/
def atoi? (s : String) : Option Int :=
  match s.data with
  | [] => none
  | c :: rest =>
    let digits := if c = '-' ∨ c = '+' then rest else c :: rest
    let neg := c = '-'
    if digits = [] then none
    else if digits.all Char.isDigit then
      let n : Nat := digits.foldl (fun acc d => acc * 10 + (d.toNat - 48)) 0
      some (if neg then -(n : Int) else (n : Int))
    else none

/-! ## ProductCatalog (reference chaincode, `SimpleChaincode`) -/

/-- `stateUnknown`..`stateInactive` from the `iota` block. -/
def stateUnknown : Int := 0

def stateRegistered : Int := 1

def stateActive : Int := 2

def stateDecisionMaking : Int := 3

def stateInactive : Int := 4

/-- The `productStateMachine` map: state to the list of allowed next states. -/
def productStateMachine : List (Int × List Int) :=
  [(stateRegistered, [stateRegistered, stateActive]),
   (stateActive, [stateActive, stateDecisionMaking]),
   (stateDecisionMaking, [stateActive, stateDecisionMaking, stateInactive]),
   (stateInactive, [stateInactive])]

/-- Go `mapKey`: whether `value` is a key of the map `m`. -/
def mapKey (m : List (Int × List Int)) (value : Int) : Bool :=
  (lookupKV value m).isSome

/-- The range-loop in Go `checkNewState`: whether `x` occurs in `l`. -/
def listHas (l : List Int) (x : Int) : Bool :=
  match l with
  | [] => false
  | v :: rest => if v = x then true else listHas rest x

/-- Go `checkNewState`: whether `stateNew` occurs in the successor list that
`states` assigns to `stateOld`. -/
def checkNewState (states : List (Int × List Int)) (stateOld stateNew : Int) : Bool :=
  match lookupKV stateOld states with
  | some newStates => listHas newStates stateNew
  | none => false

/-- The `Product` struct of the reference chaincode. -/
structure Product where
  objectType : String
  name : String
  desc : String
  state : Int
  lastUpdated : Int
  owner : String
deriving Repr, DecidableEq

/-- Ledger state of the reference chaincode: the product records (keyed by
product name) and the `state~name` secondary-index entries. -/
structure RefLedger where
  products : List (String × Product)
  stateIndex : List (Int × String)
deriving Repr, DecidableEq

/-- Insert a `state~name` index entry (`PutState` of the marker byte:
idempotent on an already-present entry). -/
def putIndexEntry (e : Int × String) (idx : List (Int × String)) : List (Int × String) :=
  if idx.contains e then idx else idx ++ [e]

/-- Delete a `state~name` index entry (`DelState`). -/
def delIndexEntry (e : Int × String) (idx : List (Int × String)) : List (Int × String) :=
  idx.filter (fun x => x ≠ e)

/-- Auxiliary recursion for the Go input-sanitation loop. -/
def firstEmptyArgAux (k : Nat) : List String → Option Nat
  | [] => none
  | v :: rest => if v.length = 0 then some k else firstEmptyArgAux (k + 1) rest

/-- First index of an empty string in `args`, mirroring the Go
input-sanitation loop `for k, v := range args`. -/
def firstEmptyArg (args : List String) : Option Nat :=
  firstEmptyArgAux 0 args

/-- `initProduct(name, desc, state, owner, lastUpdated)` of the reference
chaincode, translated clause by clause. -/
def initProduct (led : RefLedger) (args : List String) : Response × RefLedger :=
  if args.length < 5 then (shimError ("Incorrect number of arguments. Expecting 5"), led)
  else match firstEmptyArg args with
  | some k => (shimError (toString (k + 1) ++ "st argument must be a non-empty string"), led)
  | none =>
    let productName := args.getD 0 ""
    let desc := args.getD 1 ""
    match atoi? (args.getD 2 "") with
    | none => (shimError ("Product state must be int. Error: parse error"), led)
    | some state =>
      let owner := strToLower (args.getD 3 "")
      match atoi? (args.getD 4 "") with
      | none => (shimError ("Product date updated must be timestamp. Error: parse error"), led)
      | some lastUpdated =>
        let legalState := mapKey productStateMachine state
        if !legalState then
          (shimError ("Not legal product state"), led)
        else match lookupKV productName led.products with
        | some _ => (shimError ("This product already exists: " ++ productName), led)
        | none =>
          let product : Product := ⟨"product", productName, desc, state, lastUpdated, owner⟩
          let products2 := putKV productName product led.products
          let idx2 := putIndexEntry (product.state, product.name) led.stateIndex
          (shimSuccess, ⟨products2, idx2⟩)

/-- `updateProduct(name, desc, newState, newOwner, lastUpdated)` of the
reference chaincode. The Go code assigns `productToUpdate.State = newState`
before testing `productToUpdate.State != newState` for index maintenance; the
translation keeps that order. -/
def updateProduct (led : RefLedger) (args : List String) : Response × RefLedger :=
  if args.length < 5 then (shimError ("Incorrect number of arguments. Expecting 5"), led)
  else match firstEmptyArg args with
  | some k => (shimError (toString (k + 1) ++ "st argument must be a non-empty string"), led)
  | none =>
    let productName := args.getD 0 ""
    let newDesc := args.getD 1 ""
    match atoi? (args.getD 2 "") with
    | none => (shimError ("Product state must be int. Error: parse error"), led)
    | some newState =>
      let newOwner := strToLower (args.getD 3 "")
      match atoi? (args.getD 4 "") with
      | none => (shimError ("Product date updated must be timestamp. Error: parse error"), led)
      | some lastUpdated =>
        match lookupKV productName led.products with
        | none => (shimError ("Product does not exist"), led)
        | some productToUpdate0 =>
          let legalState := mapKey productStateMachine newState
          let legalStateMachine := checkNewState productStateMachine productToUpdate0.state newState
          if !legalState || !legalStateMachine then
            (shimError ("Not legal product state"), led)
          else
            let productToUpdate :=
              { productToUpdate0 with
                  desc := newDesc, state := newState, owner := newOwner,
                  lastUpdated := lastUpdated }
            let products2 := putKV productName productToUpdate led.products
            if productToUpdate.state ≠ newState then
              let idx := delIndexEntry (productToUpdate.state, productToUpdate.name) led.stateIndex
              let idx2 := putIndexEntry (newState, productToUpdate.name) idx
              (shimSuccess, ⟨products2, idx2⟩)
            else
              (shimSuccess, ⟨products2, led.stateIndex⟩)

/-- `transferProduct(name, newOwner)` of the reference chaincode: rewrites the
owner (lowercased) of an existing product, with no state-machine check. -/
def transferProduct (led : RefLedger) (args : List String) : Response × RefLedger :=
  if args.length < 2 then (shimError ("Incorrect number of arguments. Expecting 2"), led)
  else
    let productName := args.getD 0 ""
    let newOwner := strToLower (args.getD 1 "")
    match lookupKV productName led.products with
    | none => (shimError ("Product does not exist"), led)
    | some p =>
      let p2 := { p with owner := newOwner }
      (shimSuccess, { led with products := putKV productName p2 led.products })

/-- `updateOwner(productName, oldOwner, newOwner, timestamp)` of the reference
chaincode: case-sensitive ownership check, owner stored without lowercasing. -/
def updateOwner (led : RefLedger) (args : List String) : Response × RefLedger :=
  if args.length < 4 then (shimError ("Incorrect number of arguments. Expecting 4"), led)
  else match firstEmptyArg args with
  | some k => (shimError ("Argument #" ++ toString (k + 1) ++ " must be a non-empty string"), led)
  | none =>
    let productName := args.getD 0 ""
    let oldOwner := args.getD 1 ""
    let newOwner := args.getD 2 ""
    match atoi? (args.getD 3 "") with
    | none => (shimError ("Product date updated must be timestamp. Error: parse error"), led)
    | some lastUpdated =>
      match lookupKV productName led.products with
      | none => (shimError ("Product does not exist"), led)
      | some p =>
        if p.owner ≠ oldOwner then
          (shimError ("The specified product doesn\x27t belong to the specified owner."), led)
        else
          let p2 := { p with owner := newOwner, lastUpdated := lastUpdated }
          (shimSuccess, { led with products := putKV productName p2 led.products })

/-- The CouchDB selector string built by `queryProductsByOwner` before
delegating to the rich-query capability: the owner argument is lowercased. -/
def queryProductsByOwnerQueryString (args : List String) : Option String :=
  if args.length < 1 then none
  else some ("\x7b\"selector\":\x7b\"docType\":\"product\",\"owner\":\""
    ++ strToLower (args.getD 0 "") ++ "\"\x7d\x7d")

/-! ## TransferNegotiator (relationship chaincode, `OwnershipChaincode`) -/

/-- `basicArgumentsNumber` / `keyFieldsNumber` from the companion file. -/
def basicArgumentsNumber : Nat := 3

def keyFieldsNumber : Nat := 3

/-- Negotiation status constants from the companion file. -/
def statusInitiated : String := "Initiated"

def statusAccepted : String := "Accepted"

def statusRejected : String := "Rejected"

/-- Modelled from the spec: the companion declarations file of the evolved
ownership chaincode (the second file of `src/unnamed/part_002` uses a
`statusCancelled` constant whose defining file is not among the sources).
The spec fixes the status enum as Initiated, Accepted, Rejected, Cancelled,
and the client UI maps the literal string "Cancelled". -/
def statusCancelled : String := "Cancelled"

/-- `transferIndex`, the composite-key namespace of negotiation entries. -/
def transferIndex : String := "TransferDetails"

/-- `TransferDetailsKey`: the (productKey, senderOrg, receiverOrg) triple. -/
structure TransferDetailsKey where
  productKey : String
  requestSender : String
  requestReceiver : String
deriving Repr, DecidableEq

/-- `TransferDetailsValue` of the relationship chaincode: status and message. -/
structure TransferDetailsValue where
  status : String
  message : String
deriving Repr, DecidableEq

/-- `FillFromArguments` / `FillFromCompositeKeyParts`: the first three
arguments become the key triple. -/
def fillKeyFromArgs (args : List String) : TransferDetailsKey :=
  ⟨args.getD 0 "", args.getD 1 "", args.getD 2 ""⟩

/-- Event payload built by `EmitState`: old owner is the request receiver,
new owner is the request sender. -/
structure EventDetails where
  productKey : String
  oldOwner : String
  newOwner : String
deriving Repr, DecidableEq

/-- Ledger state of the relationship chaincode plus the trace of events set
via `stub.SetEvent`. -/
structure OwnLedger where
  transfers : List (TransferDetailsKey × TransferDetailsValue)
  events : List (String × EventDetails)
deriving Repr, DecidableEq

/-- `checkProductExistenceAndOwnership(productKey, requiredOwner)`: a
read-only cross-channel `readProduct` invocation against the common-channel
catalog, then a case-sensitive owner comparison. -/
def checkProductExistenceAndOwnership (common : RefLedger) (productKey requiredOwner : String) :
    Except String Unit :=
  match lookupKV productKey common.products with
  | none =>
    .error ("unable to read product " ++ productKey ++ " from common channel: "
      ++ "product " ++ productKey ++ " doesn\x27t exist")
  | some p =>
    if p.owner ≠ requiredOwner then
      .error ("product " ++ productKey ++ " don\x27t belong to organization " ++ requiredOwner)
    else
      .ok ()

/-- `sendRequest(productKey, senderOrg, receiverOrg, message)` of the
relationship chaincode. `creatorOrg` models `GetCreatorOrganization(stub)`;
`common` is the read-only common-channel catalog consulted by
`checkProductExistenceAndOwnership`. -/
def sendRequest (common : RefLedger) (creatorOrg : String) (own : OwnLedger)
    (args : List String) : Response × OwnLedger :=
  if args.length < basicArgumentsNumber + 1 then
    (shimError ("insufficient number of arguments: expected 4, got " ++ toString args.length), own)
  else
    let key := fillKeyFromArgs args
    if creatorOrg ≠ key.requestSender then
      (shimError ("no privileges to send request from the side of organization "
        ++ key.requestSender ++ " (caller is from organization " ++ creatorOrg ++ ")"), own)
    else
      let initiatedAlready : Bool :=
        match lookupKV key own.transfers with
        | some v => v.status = statusInitiated
        | none => false
      if initiatedAlready then
        (shimError ("ownership transfer is already initiated"), own)
      else
        match checkProductExistenceAndOwnership common key.productKey key.requestReceiver with
        | .error e => (shimError e, own)
        | .ok _ =>
          let value : TransferDetailsValue := ⟨statusInitiated, args.getD keyFieldsNumber ""⟩
          (shimSuccess, { own with transfers := putKV key value own.transfers })

/-- `transferAccepted(productKey, senderOrg, receiverOrg)` of the relationship
chaincode: guard caller = receiver, entry must exist with status Initiated,
ownership is re-verified, then the entry is set to Accepted and `EmitState`
emits one event named `TransferDetails.Accepted` with payload
(productKey, oldOwner = receiver, newOwner = sender). The common-channel
catalog is only read, never written. -/
def transferAccepted (common : RefLedger) (creatorOrg : String) (own : OwnLedger)
    (args : List String) : Response × OwnLedger :=
  if args.length < basicArgumentsNumber then
    (shimError ("insufficient number of arguments: expected 3, got " ++ toString args.length), own)
  else
    let key := fillKeyFromArgs args
    if creatorOrg ≠ key.requestReceiver then
      (shimError ("no privileges to accept transfer from the side of organization "
        ++ key.requestReceiver ++ " (caller is from organization " ++ creatorOrg ++ ")"), own)
    else
      match lookupKV key own.transfers with
      | none => (shimError ("ownership transfer wasn\x27t initiated"), own)
      | some v =>
        if v.status ≠ statusInitiated then
          (shimError ("ownership transfer wasn\x27t initiated"), own)
        else
          match checkProductExistenceAndOwnership common key.productKey key.requestReceiver with
          | .error e => (shimError e, own)
          | .ok _ =>
            let v2 := { v with status := statusAccepted }
            let own2 := { own with transfers := putKV key v2 own.transfers }
            let payload : EventDetails := ⟨key.productKey, key.requestReceiver, key.requestSender⟩
            let own3 := { own2 with
              events := own2.events ++ [(transferIndex ++ "." ++ v2.status, payload)] }
            (shimSuccess, own3)

/-- `transferRejected(productKey, senderOrg, receiverOrg)` of the relationship
chaincode (`src/chaincode/go/relationship/chaincode_example02.go` lines
141-177): only the receiver may call it, and the entry is set to Rejected. -/
def transferRejected (creatorOrg : String) (own : OwnLedger)
    (args : List String) : Response × OwnLedger :=
  if args.length < basicArgumentsNumber then
    (shimError ("insufficient number of arguments: expected 3, got " ++ toString args.length), own)
  else
    let key := fillKeyFromArgs args
    if creatorOrg ≠ key.requestReceiver then
      (shimError ("no privileges to reject transfer from the side of organization "
        ++ key.requestReceiver ++ " (caller is from organization " ++ creatorOrg ++ ")"), own)
    else
      match lookupKV key own.transfers with
      | none => (shimError ("ownership transfer wasn\x27t initiated"), own)
      | some v =>
        if v.status ≠ statusInitiated then
          (shimError ("ownership transfer wasn\x27t initiated"), own)
        else
          let v2 := { v with status := statusRejected }
          (shimSuccess, { own with transfers := putKV key v2 own.transfers })

/-! ### Evolved negotiator (second file of `src/unnamed/part_002`)

The evolved `TransferDetailsValue` carries a timestamp
(`details.Value.Timestamp = time.Now().UTC().Unix()`); its struct definition
file is not among the sources, so the value shape is modelled from the spec
(status, message, timestamp). -/

/-- Modelled from the spec: the evolved negotiation entry value —
status (enum), message (text), timestamp — as in spec section 3
(TransferRequest value) and the uses in the second file of
`src/unnamed/part_002`. -/
structure TransferDetailsValue2 where
  status : String
  message : String
  timestamp : Int
deriving Repr, DecidableEq

/-- Ledger state for the evolved negotiator. -/
structure OwnLedger2 where
  transfers : List (TransferDetailsKey × TransferDetailsValue2)
  events : List (String × EventDetails)
deriving Repr, DecidableEq

/-- The evolved `transferRejected` (`src/unnamed/part_002` lines 703-771):
the caller may be the receiver (entry becomes Rejected) or the sender (entry
becomes Cancelled); any other caller gets a 403 response. No event is set.
`now` models `time.Now().UTC().Unix()`. -/
def transferRejectedV2 (creatorOrg : String) (now : Int) (own : OwnLedger2)
    (args : List String) : Response × OwnLedger2 :=
  if args.length < basicArgumentsNumber then
    (shimError ("insufficient number of arguments: expected 3, got " ++ toString args.length), own)
  else
    let key := fillKeyFromArgs args
    let creatorIsReceiver := creatorOrg = key.requestReceiver
    let creatorIsSender := creatorOrg = key.requestSender
    if ¬ creatorIsReceiver ∧ ¬ creatorIsSender then
      (⟨403, "no privileges to reject transfer from the side of organization " ++ creatorOrg⟩, own)
    else
      match lookupKV key own.transfers with
      | none => (shimError ("ownership transfer wasn\x27t initiated"), own)
      | some v =>
        if v.status ≠ statusInitiated then
          (shimError ("ownership transfer wasn\x27t initiated"), own)
        else
          let status2 := if creatorOrg = key.requestReceiver then statusRejected
            else statusCancelled
          let v2 := { v with status := status2, timestamp := now }
          (shimSuccess, { own with transfers := putKV key v2 own.transfers })

/-! ## Theorems for the claims -/

/-- Every state reachable through the transition table is itself a key of the
table (used to discharge the `legalState` conjunct of `updateProduct`). -/
lemma checkNewState_imp_mapKey {sOld sNew : Int}
    (h : checkNewState productStateMachine sOld sNew = true) :
    mapKey productStateMachine sNew = true := by
  simp only [checkNewState, productStateMachine, lookupKV, listHas, mapKey,
    stateRegistered, stateActive, stateDecisionMaking, stateInactive] at h ⊢
  split_ifs at h ⊢ <;> simp_all [listHas] <;> omega

/-- Claim C2 (code bug witness): `initProduct` validates the state argument
only by `mapKey` membership in `productStateMachine`, whose keys are all four
states; so a product created with state argument "2" (Active) is accepted and
stored in state Active, contradicting the code comment
`only "Registered" state when add new product` and the spec. -/
theorem initProduct_accepts_active_state_bug :
    (initProduct ⟨[], []⟩ ["Book", "Go Tutorial", "2", "OrgA", "1000"]).1 = shimSuccess ∧
    (initProduct ⟨[], []⟩ ["Book", "Go Tutorial", "2", "OrgA", "1000"]).2.products =
      [("Book", ⟨"product", "Book", "Go Tutorial", stateActive, 1000, "orga"⟩)] ∧
    stateActive ≠ stateRegistered := by
  exact ⟨by decide, by decide, by decide⟩

/-- Claim C3 (code bug witness): `updateProduct` assigns
`productToUpdate.State = newState` before evaluating the index-maintenance
guard `productToUpdate.State != newState`, so the guard is always false: on a
Registered-to-Active update the record moves to state Active but the
state-index still holds only the stale (Registered, "Book") entry and no
(Active, "Book") entry is created. -/
theorem updateProduct_stale_index_bug :
    (updateProduct ⟨[("Book", ⟨"product", "Book", "d", stateRegistered, 1000, "orga"⟩)],
        [(stateRegistered, "Book")]⟩ ["Book", "d2", "2", "OrgA", "1001"]).1 = shimSuccess ∧
    (updateProduct ⟨[("Book", ⟨"product", "Book", "d", stateRegistered, 1000, "orga"⟩)],
        [(stateRegistered, "Book")]⟩ ["Book", "d2", "2", "OrgA", "1001"]).2 =
      ⟨[("Book", ⟨"product", "Book", "d2", stateActive, 1001, "orga"⟩)],
        [(stateRegistered, "Book")]⟩ := by
  exact ⟨by decide, by decide⟩

/-- Claim C8 (confirmed): for any existing product, in any lifecycle state,
`transferProduct` succeeds without consulting the transition table and rewrites
exactly the owner field to the lowercased new owner, leaving the name,
description, state, lastUpdated and the state index unchanged. -/
theorem transferProduct_changes_owner_only
    (led : RefLedger) (name newOwner : String) (P : Product)
    (h : lookupKV name led.products = some P) :
    transferProduct led [name, newOwner] =
      (shimSuccess,
        { led with products := putKV name { P with owner := strToLower newOwner } led.products }) := by
  simp [transferProduct, h]

/-- Witness for C8: a product in the terminal state Inactive is transferred,
the owner becomes the lowercased argument, and every other field and the
index entry stay as they were. -/
theorem transferProduct_changes_owner_only_witness :
    transferProduct
        ⟨[("Book", ⟨"product", "Book", "d", stateInactive, 1000, "orga"⟩)],
          [(stateInactive, "Book")]⟩ ["Book", "OrgB"] =
      (shimSuccess,
        ⟨[("Book", ⟨"product", "Book", "d", stateInactive, 1000, "orgb"⟩)],
          [(stateInactive, "Book")]⟩) := by
  exact (transferProduct_changes_owner_only
    ⟨[("Book", ⟨"product", "Book", "d", stateInactive, 1000, "orga"⟩)], [(stateInactive, "Book")]⟩
    "Book" "OrgB" ⟨"product", "Book", "d", stateInactive, 1000, "orga"⟩ (by decide)).trans
    (by decide)

/-- Claim C9 (confirmed): `initProduct` and `updateProduct` lowercase the
owner before storing, and `queryProductsByOwner` lowercases before matching,
while `updateOwner` and the transfer chaincode ownership check compare
case-sensitively: a product created with owner "OrgA" stores "orga", after
which both `updateOwner` naming "OrgA" and the cross-domain verification
requiring "OrgA" fail with an ownership mismatch. -/
theorem owner_lowercasing_mismatch :
    (initProduct ⟨[], []⟩ ["Book", "Go Tutorial", "1", "OrgA", "1000"]).1 = shimSuccess ∧
    (initProduct ⟨[], []⟩ ["Book", "Go Tutorial", "1", "OrgA", "1000"]).2.products =
      [("Book", ⟨"product", "Book", "Go Tutorial", stateRegistered, 1000, "orga"⟩)] ∧
    (updateProduct (initProduct ⟨[], []⟩ ["Book", "Go Tutorial", "1", "OrgA", "1000"]).2
        ["Book", "d2", "2", "OrgB", "1001"]).2.products =
      [("Book", ⟨"product", "Book", "d2", stateActive, 1001, "orgb"⟩)] ∧
    queryProductsByOwnerQueryString ["OrgA"] =
      some ("\x7b\"selector\":\x7b\"docType\":\"product\",\"owner\":\"orga\"\x7d\x7d") ∧
    updateOwner (initProduct ⟨[], []⟩ ["Book", "Go Tutorial", "1", "OrgA", "1000"]).2
        ["Book", "OrgA", "OrgB", "1001"] =
      (shimError ("The specified product doesn\x27t belong to the specified owner."),
        (initProduct ⟨[], []⟩ ["Book", "Go Tutorial", "1", "OrgA", "1000"]).2) ∧
    checkProductExistenceAndOwnership
        (initProduct ⟨[], []⟩ ["Book", "Go Tutorial", "1", "OrgA", "1000"]).2 "Book" "OrgA" =
      .error ("product Book don\x27t belong to organization OrgA") := by
  exact ⟨by decide, by decide, by decide, by decide, by decide, by decide⟩

/-- Claim C4 (confirmed): for an existing product in state S and a parsed
requested state S2, `updateProduct` succeeds exactly when S2 is in the
allowed-successor set that `productStateMachine` assigns to S, and otherwise
fails with the state-transition error leaving the whole ledger unchanged. -/
theorem updateProduct_transition_table
    (led : RefLedger) (name desc stS ownS tsS : String) (S2 ts : Int) (P : Product)
    (hname : 0 < name.length) (hdesc : 0 < desc.length) (hst : 0 < stS.length)
    (hown : 0 < ownS.length) (hts : 0 < tsS.length)
    (hS2 : atoi? stS = some S2) (hts2 : atoi? tsS = some ts)
    (hP : lookupKV name led.products = some P) :
    ((updateProduct led [name, desc, stS, ownS, tsS]).1.status = 200 ↔
      checkNewState productStateMachine P.state S2 = true) ∧
    (checkNewState productStateMachine P.state S2 = false →
      updateProduct led [name, desc, stS, ownS, tsS] =
        (shimError ("Not legal product state"), led)) := by
  have hne : firstEmptyArg [name, desc, stS, ownS, tsS] = none := by
    simp [firstEmptyArg, firstEmptyArgAux, hname.ne', hdesc.ne', hst.ne', hown.ne', hts.ne']
  by_cases hc : checkNewState productStateMachine P.state S2 = true
  · have hmk := checkNewState_imp_mapKey hc
    constructor
    · simp [updateProduct, hne, hS2, hts2, hP, hc, hmk, shimSuccess]
    · intro hfalse; rw [hfalse] at hc; exact Bool.noConfusion hc
  · have hcf : checkNewState productStateMachine P.state S2 = false := by
      cases hx : checkNewState productStateMachine P.state S2 with
      | true => exact absurd hx hc
      | false => rfl
    constructor
    · simp [updateProduct, hne, hS2, hts2, hP, hcf, shimError]
    · intro _
      simp [updateProduct, hne, hS2, hts2, hP, hcf, shimError]

/-- Witness for C4: the direct Registered-to-Inactive update is rejected with
the state-transition error and the ledger is unchanged, while a
DecisionMaking-to-Active update succeeds. -/
theorem updateProduct_transition_table_witness :
    updateProduct ⟨[("Book", ⟨"product", "Book", "d", stateRegistered, 1000, "orga"⟩)],
        [(stateRegistered, "Book")]⟩ ["Book", "d2", "4", "OrgA", "1001"] =
      (shimError ("Not legal product state"),
        ⟨[("Book", ⟨"product", "Book", "d", stateRegistered, 1000, "orga"⟩)],
          [(stateRegistered, "Book")]⟩) ∧
    (updateProduct ⟨[("Book", ⟨"product", "Book", "d", stateDecisionMaking, 1000, "orga"⟩)],
        [(stateDecisionMaking, "Book")]⟩ ["Book", "d2", "2", "OrgA", "1001"]).1.status = 200 := by
  constructor
  · exact (updateProduct_transition_table
      ⟨[("Book", ⟨"product", "Book", "d", stateRegistered, 1000, "orga"⟩)],
        [(stateRegistered, "Book")]⟩
      "Book" "d2" "4" "OrgA" "1001" 4 1001
      ⟨"product", "Book", "d", stateRegistered, 1000, "orga"⟩
      (by decide) (by decide) (by decide) (by decide) (by decide)
      (by decide) (by decide) (by decide)).2 (by decide)
  · exact ((updateProduct_transition_table
      ⟨[("Book", ⟨"product", "Book", "d", stateDecisionMaking, 1000, "orga"⟩)],
        [(stateDecisionMaking, "Book")]⟩
      "Book" "d2" "2" "OrgA" "1001" 2 1001
      ⟨"product", "Book", "d", stateDecisionMaking, 1000, "orga"⟩
      (by decide) (by decide) (by decide) (by decide) (by decide)
      (by decide) (by decide) (by decide)).1).mpr (by decide)

/-- Claim C5 (confirmed): on an Initiated entry, the evolved `transferRejected`
sets the status to Rejected when the caller is the receiver organization, to
Cancelled when the caller is the sender organization (and not the receiver),
and fails with a 403 authorization response leaving the entry unchanged for
any other caller; no event is emitted in any of the three cases (the events
trace is untouched). -/
theorem transferRejectedV2_caller_branches
    (own : OwnLedger2) (pk s r caller : String) (now : Int) (v : TransferDetailsValue2)
    (hv : lookupKV ⟨pk, s, r⟩ own.transfers = some v)
    (hst : v.status = statusInitiated) :
    (caller = r →
      transferRejectedV2 caller now own [pk, s, r] =
        (shimSuccess,
          { own with
              transfers :=
                putKV ⟨pk, s, r⟩ ({ v with status := statusRejected, timestamp := now })
                  own.transfers })) ∧
    (caller = s → caller ≠ r →
      transferRejectedV2 caller now own [pk, s, r] =
        (shimSuccess,
          { own with
              transfers :=
                putKV ⟨pk, s, r⟩ ({ v with status := statusCancelled, timestamp := now })
                  own.transfers })) ∧
    (caller ≠ r → caller ≠ s →
      transferRejectedV2 caller now own [pk, s, r] =
        (⟨403, "no privileges to reject transfer from the side of organization " ++ caller⟩,
          own)) := by
  refine ⟨?_, ?_, ?_⟩
  · intro hcr
    subst hcr
    simp [transferRejectedV2, fillKeyFromArgs, hv, hst, basicArgumentsNumber]
  · intro hcs hcr
    subst hcs
    simp [transferRejectedV2, fillKeyFromArgs, hv, hst, hcr, basicArgumentsNumber]
  · intro hcr hcs
    simp [transferRejectedV2, fillKeyFromArgs, hv, hst, hcr, hcs, basicArgumentsNumber]

/-- Witness for C5: Scenario 5 concretely — the receiver OrgA turns the
Initiated entry into Rejected, the sender OrgB turns it into Cancelled, and
the third party OrgC gets a 403 with the entry unchanged. -/
theorem transferRejectedV2_caller_branches_witness :
    transferRejectedV2 "OrgA" 77
        ⟨[(⟨"Book", "OrgB", "OrgA"⟩, ⟨statusInitiated, "m", 5⟩)], []⟩ ["Book", "OrgB", "OrgA"] =
      (shimSuccess, ⟨[(⟨"Book", "OrgB", "OrgA"⟩, ⟨statusRejected, "m", 77⟩)], []⟩) ∧
    transferRejectedV2 "OrgB" 77
        ⟨[(⟨"Book", "OrgB", "OrgA"⟩, ⟨statusInitiated, "m", 5⟩)], []⟩ ["Book", "OrgB", "OrgA"] =
      (shimSuccess, ⟨[(⟨"Book", "OrgB", "OrgA"⟩, ⟨statusCancelled, "m", 77⟩)], []⟩) ∧
    transferRejectedV2 "OrgC" 77
        ⟨[(⟨"Book", "OrgB", "OrgA"⟩, ⟨statusInitiated, "m", 5⟩)], []⟩ ["Book", "OrgB", "OrgA"] =
      (⟨403, "no privileges to reject transfer from the side of organization OrgC"⟩,
        ⟨[(⟨"Book", "OrgB", "OrgA"⟩, ⟨statusInitiated, "m", 5⟩)], []⟩) := by
  refine ⟨?_, ?_, ?_⟩
  · exact ((transferRejectedV2_caller_branches
      ⟨[(⟨"Book", "OrgB", "OrgA"⟩, ⟨statusInitiated, "m", 5⟩)], []⟩
      "Book" "OrgB" "OrgA" "OrgA" 77 ⟨statusInitiated, "m", 5⟩
      (by decide) (by decide)).1 rfl).trans (by decide)
  · exact ((transferRejectedV2_caller_branches
      ⟨[(⟨"Book", "OrgB", "OrgA"⟩, ⟨statusInitiated, "m", 5⟩)], []⟩
      "Book" "OrgB" "OrgA" "OrgB" 77 ⟨statusInitiated, "m", 5⟩
      (by decide) (by decide)).2.1 rfl (by decide)).trans (by decide)
  · exact ((transferRejectedV2_caller_branches
      ⟨[(⟨"Book", "OrgB", "OrgA"⟩, ⟨statusInitiated, "m", 5⟩)], []⟩
      "Book" "OrgB" "OrgA" "OrgC" 77 ⟨statusInitiated, "m", 5⟩
      (by decide) (by decide)).2.2 (by decide) (by decide)).trans (by decide)

/-- Claim C6 (confirmed): when the caller organization differs from the
senderOrg argument, `sendRequest` fails with the no-privileges authorization
error and the negotiation state is returned exactly as it was — no
transfer-request record is written. -/
theorem sendRequest_rejects_unauthorized_sender
    (common : RefLedger) (creatorOrg : String) (own : OwnLedger) (pk sd rc msg : String)
    (hne : creatorOrg ≠ sd) :
    sendRequest common creatorOrg own [pk, sd, rc, msg] =
      (shimError ("no privileges to send request from the side of organization "
        ++ sd ++ " (caller is from organization " ++ creatorOrg ++ ")"), own) := by
  simp [sendRequest, fillKeyFromArgs, basicArgumentsNumber, hne]

/-- Witness for C6: Scenario 2 — a caller resolved to OrgC requesting a
transfer from OrgB to OrgA is rejected with the authorization error and the
(empty) negotiation namespace is unchanged. -/
theorem sendRequest_rejects_unauthorized_sender_witness :
    sendRequest ⟨[], []⟩ "OrgC" ⟨[], []⟩ ["Book", "OrgB", "OrgA", "please transfer"] =
      (shimError ("no privileges to send request from the side of organization OrgB"
        ++ " (caller is from organization OrgC)"), ⟨[], []⟩) := by
  exact (sendRequest_rejects_unauthorized_sender ⟨[], []⟩ "OrgC" ⟨[], []⟩
    "Book" "OrgB" "OrgA" "please transfer" (by decide)).trans (by decide)

/-- Whatever failure `checkProductExistenceAndOwnership` reports, its message
is never the already-initiated conflict message (their leading characters
differ), so the two failure kinds cannot be confused. -/
lemma checkOwnership_error_ne_conflict (common : RefLedger) (pk r e : String)
    (h : checkProductExistenceAndOwnership common pk r = .error e) :
    e ≠ "ownership transfer is already initiated" := by
  unfold checkProductExistenceAndOwnership at h
  cases hl : lookupKV pk common.products with
  | none =>
    rw [hl] at h
    cases h
    intro habs
    have hd := congrArg String.data habs
    simp [String.data] at hd
  | some p =>
    rw [hl] at h
    by_cases hown : p.owner ≠ r
    · simp [hown] at h
      intro habs
      rw [← h] at habs
      have hd := congrArg String.data habs
      simp [String.data] at hd
    · simp [hown] at h

/-- Claim C7 (confirmed): an authorized `sendRequest` for a triple fails with
the already-initiated conflict error exactly when the stored entry for that
triple has status Initiated; and on an entry with any other (terminal)
status, when the cross-domain verification succeeds, the call succeeds and
overwrites the entry in place with status Initiated and the new message. -/
theorem sendRequest_conflict_and_reinitiation
    (common : RefLedger) (own : OwnLedger) (pk s r msg : String) :
    ((sendRequest common s own [pk, s, r, msg]).1 =
        shimError ("ownership transfer is already initiated") ↔
      (∃ v, lookupKV ⟨pk, s, r⟩ own.transfers = some v ∧ v.status = statusInitiated)) ∧
    (∀ v, lookupKV ⟨pk, s, r⟩ own.transfers = some v → v.status ≠ statusInitiated →
      checkProductExistenceAndOwnership common pk r = .ok () →
      sendRequest common s own [pk, s, r, msg] =
        (shimSuccess,
          { own with
              transfers := putKV ⟨pk, s, r⟩ ⟨statusInitiated, msg⟩ own.transfers })) := by
  constructor
  · cases hl : lookupKV (⟨pk, s, r⟩ : TransferDetailsKey) own.transfers with
    | none =>
      cases hck : checkProductExistenceAndOwnership common pk r with
      | ok u =>
        cases u
        simp [sendRequest, fillKeyFromArgs, hl, hck, basicArgumentsNumber, keyFieldsNumber,
          shimSuccess, shimError]
      | error e =>
        have hmsg := checkOwnership_error_ne_conflict common pk r e hck
        simp [sendRequest, fillKeyFromArgs, hl, hck, basicArgumentsNumber, keyFieldsNumber,
          shimError, hmsg]
    | some v =>
      by_cases hs : v.status = statusInitiated
      · simp [sendRequest, fillKeyFromArgs, hl, hs, basicArgumentsNumber, keyFieldsNumber]
      · cases hck : checkProductExistenceAndOwnership common pk r with
        | ok u =>
          cases u
          simp [sendRequest, fillKeyFromArgs, hl, hs, hck, basicArgumentsNumber, keyFieldsNumber,
            shimSuccess, shimError]
        | error e =>
          have hmsg := checkOwnership_error_ne_conflict common pk r e hck
          simp [sendRequest, fillKeyFromArgs, hl, hs, hck, basicArgumentsNumber, keyFieldsNumber,
            shimError, hmsg]
  · intro v hv hns hver
    have hsb : ¬ (v.status = statusInitiated) := hns
    simp [sendRequest, fillKeyFromArgs, hv, hsb, hver, basicArgumentsNumber, keyFieldsNumber]

/-- Witness for C7: Scenario 4 — re-sending while the entry is Initiated hits
the conflict error, and re-sending after the entry was Rejected overwrites it
in place with a fresh Initiated entry carrying the new message. -/
theorem sendRequest_conflict_and_reinitiation_witness :
    (sendRequest ⟨[("Book", ⟨"product", "Book", "d", stateRegistered, 1000, "OrgA"⟩)], []⟩
        "OrgB" ⟨[(⟨"Book", "OrgB", "OrgA"⟩, ⟨statusInitiated, "first"⟩)], []⟩
        ["Book", "OrgB", "OrgA", "again"]).1 =
      shimError ("ownership transfer is already initiated") ∧
    sendRequest ⟨[("Book", ⟨"product", "Book", "d", stateRegistered, 1000, "OrgA"⟩)], []⟩
        "OrgB" ⟨[(⟨"Book", "OrgB", "OrgA"⟩, ⟨statusRejected, "first"⟩)], []⟩
        ["Book", "OrgB", "OrgA", "retry"] =
      (shimSuccess, ⟨[(⟨"Book", "OrgB", "OrgA"⟩, ⟨statusInitiated, "retry"⟩)], []⟩) := by
  constructor
  · exact ((sendRequest_conflict_and_reinitiation
      ⟨[("Book", ⟨"product", "Book", "d", stateRegistered, 1000, "OrgA"⟩)], []⟩
      ⟨[(⟨"Book", "OrgB", "OrgA"⟩, ⟨statusInitiated, "first"⟩)], []⟩
      "Book" "OrgB" "OrgA" "again").1).mpr
      ⟨⟨statusInitiated, "first"⟩, by decide, rfl⟩
  · exact ((sendRequest_conflict_and_reinitiation
      ⟨[("Book", ⟨"product", "Book", "d", stateRegistered, 1000, "OrgA"⟩)], []⟩
      ⟨[(⟨"Book", "OrgB", "OrgA"⟩, ⟨statusRejected, "first"⟩)], []⟩
      "Book" "OrgB" "OrgA" "retry").2
      ⟨statusRejected, "first"⟩ (by decide) (by decide) (by decide)).trans (by decide)

/-- Claim C1 (counterexample): on the Scenario 3 state — product "Book" owned
by "OrgA" in the common-channel catalog, entry ("Book","OrgB","OrgA")
Initiated, caller resolved to "OrgA" — `transferAccepted` succeeds and emits
exactly one event with payload (productKey "Book", oldOwner "OrgA", newOwner
"OrgB"), but the catalog — which the function receives read-only, because its
only interaction with it is the cross-channel `readProduct` query inside
`checkProductExistenceAndOwnership`, and a cross-channel `InvokeChaincode`
cannot commit writes — still records owner "OrgA" ≠ "OrgB" afterwards: the
claimed call to `ProductCatalog.transferProduct` does not exist in the code,
and the product owner does not become the sender organization. -/
theorem transferAccepted_owner_unchanged_cex :
    (transferAccepted
        ⟨[("Book", ⟨"product", "Book", "d", stateRegistered, 1000, "OrgA"⟩)],
          [(stateRegistered, "Book")]⟩
        "OrgA" ⟨[(⟨"Book", "OrgB", "OrgA"⟩, ⟨statusInitiated, "msg"⟩)], []⟩
        ["Book", "OrgB", "OrgA"]).1 = shimSuccess ∧
    (transferAccepted
        ⟨[("Book", ⟨"product", "Book", "d", stateRegistered, 1000, "OrgA"⟩)],
          [(stateRegistered, "Book")]⟩
        "OrgA" ⟨[(⟨"Book", "OrgB", "OrgA"⟩, ⟨statusInitiated, "msg"⟩)], []⟩
        ["Book", "OrgB", "OrgA"]).2.events =
      [(transferIndex ++ "." ++ statusAccepted, ⟨"Book", "OrgA", "OrgB"⟩)] ∧
    (lookupKV "Book"
        (⟨[("Book", ⟨"product", "Book", "d", stateRegistered, 1000, "OrgA"⟩)],
          [(stateRegistered, "Book")]⟩ : RefLedger).products).map Product.owner =
      some "OrgA" ∧
    ("OrgA" : String) ≠ "OrgB" := by
  exact ⟨by decide, by decide, by decide, by decide⟩

/-- Claim C1 (amended): for an Initiated entry, a `transferAccepted` call by a
caller resolved to the receiver organization, with the ownership
re-verification succeeding, sets the entry status to Accepted, persists it,
and emits exactly one event whose payload is (productKey, oldOwner =
receiverOrg, newOwner = senderOrg); it performs no call to
`ProductCatalog.transferProduct`, so the catalog's product owner is unchanged
by the invocation. -/
theorem transferAccepted_accepts_and_emits
    (common : RefLedger) (own : OwnLedger) (pk s r : String) (v : TransferDetailsValue)
    (hv : lookupKV ⟨pk, s, r⟩ own.transfers = some v)
    (hst : v.status = statusInitiated)
    (hver : checkProductExistenceAndOwnership common pk r = .ok ()) :
    transferAccepted common r own [pk, s, r] =
      (shimSuccess,
        ⟨putKV ⟨pk, s, r⟩ ({ v with status := statusAccepted }) own.transfers,
          own.events ++ [(transferIndex ++ "." ++ statusAccepted, ⟨pk, r, s⟩)]⟩) := by
  simp [transferAccepted, fillKeyFromArgs, hv, hst, hver, basicArgumentsNumber]

/-- Witness for the amended C1: the Scenario 3 acceptance succeeds, the entry
becomes Accepted, and exactly one `TransferDetails.Accepted` event with
payload ("Book", oldOwner "OrgA", newOwner "OrgB") is on the trace. -/
theorem transferAccepted_accepts_and_emits_witness :
    transferAccepted
        ⟨[("Book", ⟨"product", "Book", "d", stateRegistered, 1000, "OrgA"⟩)],
          [(stateRegistered, "Book")]⟩
        "OrgA" ⟨[(⟨"Book", "OrgB", "OrgA"⟩, ⟨statusInitiated, "msg"⟩)], []⟩
        ["Book", "OrgB", "OrgA"] =
      (shimSuccess,
        ⟨[(⟨"Book", "OrgB", "OrgA"⟩, ⟨statusAccepted, "msg"⟩)],
          [("TransferDetails.Accepted", ⟨"Book", "OrgA", "OrgB"⟩)]⟩) := by
  exact (transferAccepted_accepts_and_emits
    ⟨[("Book", ⟨"product", "Book", "d", stateRegistered, 1000, "OrgA"⟩)],
      [(stateRegistered, "Book")]⟩
    ⟨[(⟨"Book", "OrgB", "OrgA"⟩, ⟨statusInitiated, "msg"⟩)], []⟩
    "Book" "OrgB" "OrgA" ⟨statusInitiated, "msg"⟩
    (by decide) (by decide) (by decide)).trans (by decide)

/-- Claim C10 (confirmed): `initProduct`, `updateProduct` and `updateOwner`
reject any argument list containing an empty string — the input-sanitation
loop fires before any ledger read or write, so the state is returned
unchanged — while `sendRequest`, `transferAccepted` and the evolved
`transferRejected` perform no emptiness check and process key fields that are
empty strings (each succeeds here on all-empty key fields). -/
theorem empty_argument_checks :
    (∀ (led : RefLedger) (args : List String) (k : Nat), ¬ args.length < 5 →
      firstEmptyArg args = some k →
      initProduct led args =
        (shimError (toString (k + 1) ++ "st argument must be a non-empty string"), led)) ∧
    (∀ (led : RefLedger) (args : List String) (k : Nat), ¬ args.length < 5 →
      firstEmptyArg args = some k →
      updateProduct led args =
        (shimError (toString (k + 1) ++ "st argument must be a non-empty string"), led)) ∧
    (∀ (led : RefLedger) (args : List String) (k : Nat), ¬ args.length < 4 →
      firstEmptyArg args = some k →
      updateOwner led args =
        (shimError ("Argument #" ++ toString (k + 1) ++ " must be a non-empty string"), led)) ∧
    (sendRequest ⟨[("", ⟨"product", "", "d", stateRegistered, 1000, ""⟩)], []⟩ ""
        ⟨[], []⟩ ["", "", "", "m"]).1 = shimSuccess ∧
    (transferAccepted ⟨[("", ⟨"product", "", "d", stateRegistered, 1000, ""⟩)], []⟩ ""
        ⟨[(⟨"", "", ""⟩, ⟨statusInitiated, "m"⟩)], []⟩ ["", "", ""]).1 = shimSuccess ∧
    (transferRejectedV2 "" 77 ⟨[(⟨"", "", ""⟩, ⟨statusInitiated, "m", 5⟩)], []⟩
        ["", "", ""]).1 = shimSuccess := by
  refine ⟨?_, ?_, ?_, by decide, by decide, by decide⟩
  · intro led args k h1 h2
    simp [initProduct, h1, h2]
  · intro led args k h1 h2
    simp [updateProduct, h1, h2]
  · intro led args k h1 h2
    simp [updateOwner, h1, h2]

/-- Witness for C10: an empty first argument makes `initProduct` fail with the
first-argument sanitation error on an unchanged empty ledger, and an empty
second argument makes `updateOwner` fail likewise. -/
theorem empty_argument_checks_witness :
    initProduct ⟨[], []⟩ ["", "d", "1", "o", "1"] =
      (shimError ("1st argument must be a non-empty string"), ⟨[], []⟩) ∧
    updateOwner ⟨[], []⟩ ["Book", "", "o", "1"] =
      (shimError ("Argument #2 must be a non-empty string"), ⟨[], []⟩) := by
  constructor
  · exact (empty_argument_checks.1 ⟨[], []⟩ ["", "d", "1", "o", "1"] 0
      (by decide) (by decide)).trans (by decide)
  · exact (empty_argument_checks.2.2.1 ⟨[], []⟩ ["Book", "", "o", "1"] 1
      (by decide) (by decide)).trans (by decide)

end FabricSupplyChain
